import Mathlib

/-!
Shallow embedding of `pybio/torch/transformations/generic.py`.

Tensor-like values are modelled as flat row-major lists of element values
together with a shape and a dtype tag.  An element value (`PyVal`) is
either NaN or an exact rational; finite floating point values are
modelled exactly as rationals and integer dtypes carry their wrap-around
cast semantics.  Host arrays (`numpy.ndarray`) and native tensors
(`torch.Tensor`) are distinguished by a tagged union.  Fallible
operations return `Except PyErr`, mirroring the Python exception kinds
raised by the code and by the underlying libraries; in particular
`torch.mean` fails with a RuntimeError on non-floating dtypes (the code
passes no `dtype=` argument) and produces NaN when averaging an empty
slice.
-/

namespace PybioGeneric

/-- Python exception kinds relevant to this module. -/
inductive PyErr
  | attributeError (msg : String)
  | typeError (msg : String)
  | indexError (msg : String)
  | valueError (msg : String)
  | runtimeError (msg : String)
  deriving DecidableEq, Repr

/-- numpy element types appearing in the model. -/
inductive NpDtype
  | bool
  | uint8
  | uint16
  | int8
  | int16
  | int32
  | int64
  | float16
  | float32
  | float64
  deriving DecidableEq, Repr

/-- torch element types appearing in the model. -/
inductive TorchDtype
  | bool
  | uint8
  | int8
  | int16
  | int32
  | int64
  | float16
  | float32
  | float64
  deriving DecidableEq, Repr

/-- An element value: NaN, or a finite value modelled as an exact
rational. -/
inductive PyVal
  | nan
  | val (q : ℚ)
  deriving DecidableEq, Repr

instance (n : Nat) : OfNat PyVal n := ⟨.val (n : ℚ)⟩

/-- IEEE addition restricted to the model: NaN propagates. -/
def PyVal.add : PyVal → PyVal → PyVal
  | .val a, .val b => .val (a + b)
  | _, _ => .nan

/-- Sum of a list of element values (NaN propagates). -/
def pySum : List PyVal → PyVal
  | [] => .val 0
  | x :: xs => x.add (pySum xs)

/-- Mean of a list of element values: NaN when the list is empty or
contains NaN, the exact average otherwise. -/
def pyMean (xs : List PyVal) : PyVal :=
  if xs.length = 0 then .nan
  else
    match pySum xs with
    | .nan => .nan
    | .val s => .val (s / (xs.length : ℚ))

/-- A host-memory `numpy.ndarray`: shape, dtype, flat row-major data. -/
structure NDArray where
  shape : List Nat
  dtype : NpDtype
  data : List PyVal
  deriving DecidableEq, Repr

/-- A `torch.Tensor`: shape, dtype, flat row-major data, plus device
placement and autograd-graph attachment flags. -/
structure TorchTensor where
  shape : List Nat
  dtype : TorchDtype
  data : List PyVal
  onGPU : Bool
  requiresGrad : Bool
  deriving DecidableEq, Repr

/-- A tensor-like value: either a host array or a native tensor. -/
inductive TensorLike
  | np (a : NDArray)
  | torch (t : TorchTensor)
  deriving DecidableEq, Repr

deriving instance DecidableEq for Except

/-- Truncation of a rational toward zero, as Python/numpy int casts do. -/
def truncQ (q : ℚ) : ℤ := if 0 ≤ q then ⌊q⌋ else ⌈q⌉

/-- Wrap an integer into the signed `w`-bit range. -/
def wrapSigned (w : Nat) (i : ℤ) : ℤ := (i + 2 ^ (w - 1)) % 2 ^ w - 2 ^ (w - 1)

/-- Wrap an integer into the unsigned `w`-bit range. -/
def wrapUnsigned (w : Nat) (i : ℤ) : ℤ := i % 2 ^ w

/-- Finite-value cast into a numpy dtype (floats modelled exactly). -/
def NpDtype.castQ : NpDtype → ℚ → ℚ
  | .bool, q => if q = 0 then 0 else 1
  | .uint8, q => (wrapUnsigned 8 (truncQ q) : ℤ)
  | .uint16, q => (wrapUnsigned 16 (truncQ q) : ℤ)
  | .int8, q => (wrapSigned 8 (truncQ q) : ℤ)
  | .int16, q => (wrapSigned 16 (truncQ q) : ℤ)
  | .int32, q => (wrapSigned 32 (truncQ q) : ℤ)
  | .int64, q => (wrapSigned 64 (truncQ q) : ℤ)
  | .float16, q => q
  | .float32, q => q
  | .float64, q => q

/-- Value cast into a numpy dtype; NaN propagates (a NaN inside an
integer-dtype array cannot arise for well-formed arrays). -/
def NpDtype.cast (d : NpDtype) : PyVal → PyVal
  | .nan => .nan
  | .val q => .val (d.castQ q)

/-- Finite-value cast into a torch dtype (floats modelled exactly). -/
def TorchDtype.castQ : TorchDtype → ℚ → ℚ
  | .bool, q => if q = 0 then 0 else 1
  | .uint8, q => (wrapUnsigned 8 (truncQ q) : ℤ)
  | .int8, q => (wrapSigned 8 (truncQ q) : ℤ)
  | .int16, q => (wrapSigned 16 (truncQ q) : ℤ)
  | .int32, q => (wrapSigned 32 (truncQ q) : ℤ)
  | .int64, q => (wrapSigned 64 (truncQ q) : ℤ)
  | .float16, q => q
  | .float32, q => q
  | .float64, q => q

/-- Value cast into a torch dtype; NaN propagates. -/
def TorchDtype.cast (d : TorchDtype) : PyVal → PyVal
  | .nan => .nan
  | .val q => .val (d.castQ q)

/-- Representable-value bounds of the integer-like numpy dtypes
(inclusive lower, exclusive upper); `none` for the float dtypes. -/
def NpDtype.intBounds : NpDtype → Option (ℤ × ℤ)
  | .bool => some (0, 2)
  | .uint8 => some (0, 2 ^ 8)
  | .uint16 => some (0, 2 ^ 16)
  | .int8 => some (-(2 ^ 7), 2 ^ 7)
  | .int16 => some (-(2 ^ 15), 2 ^ 15)
  | .int32 => some (-(2 ^ 31), 2 ^ 31)
  | .int64 => some (-(2 ^ 63), 2 ^ 63)
  | _ => none

/-- A value is representable in a numpy dtype (NaN only in the float
dtypes). -/
def NpDtype.valueOK (d : NpDtype) (v : PyVal) : Bool :=
  match d.intBounds with
  | some (lo, hi) =>
      match v with
      | .nan => false
      | .val q => q.den == 1 && decide (lo ≤ q.num) && decide (q.num < hi)
  | none => true

/-- Well-formed host array: data length matches the shape and every value
is representable in the array's dtype. -/
def NDArray.wf (a : NDArray) : Bool :=
  a.data.length == a.shape.prod && a.data.all a.dtype.valueOK

/-- `ndarray.astype(d)`: same shape, values cast into the new dtype. -/
def NDArray.astype (a : NDArray) (d : NpDtype) : NDArray :=
  { a with dtype := d, data := a.data.map d.cast }

/-- dtype translation performed by `torch.from_numpy` for the numpy dtypes
it supports (`uint16` is rejected before this map is consulted). -/
def torchDtypeOfNp : NpDtype → TorchDtype
  | .bool => .bool
  | .uint8 => .uint8
  | .uint16 => .int32
  | .int8 => .int8
  | .int16 => .int16
  | .int32 => .int32
  | .int64 => .int64
  | .float16 => .float16
  | .float32 => .float32
  | .float64 => .float64

/-- dtype translation performed by `torch.Tensor.numpy`. -/
def npDtypeOfTorch : TorchDtype → NpDtype
  | .bool => .bool
  | .uint8 => .uint8
  | .int8 => .int8
  | .int16 => .int16
  | .int32 => .int32
  | .int64 => .int64
  | .float16 => .float16
  | .float32 => .float32
  | .float64 => .float64

/-- `torch.from_numpy`: wraps a host array as a CPU tensor outside any
autograd graph; rejects `uint16`, which pytorch does not support. -/
def from_numpy (a : NDArray) : Except PyErr TorchTensor :=
  if a.dtype = .uint16 then
    .error (.typeError "can not convert a numpy.ndarray of type numpy.uint16")
  else
    .ok { shape := a.shape
          dtype := torchDtypeOfNp a.dtype
          data := a.data
          onGPU := false
          requiresGrad := false }

/-- `Tensor.detach()`: drop the autograd-graph attachment. -/
def TorchTensor.detach (t : TorchTensor) : TorchTensor :=
  { t with requiresGrad := false }

/-- `Tensor.cpu()`: move to host memory. -/
def TorchTensor.cpu (t : TorchTensor) : TorchTensor :=
  { t with onGPU := false }

/-- `Tensor.numpy()`: export to a host array; fails on a graph-attached or
device-resident tensor. -/
def TorchTensor.numpy (t : TorchTensor) : Except PyErr NDArray :=
  if t.requiresGrad then
    .error (.runtimeError "Can not call numpy() on Tensor that requires grad")
  else if t.onGPU then
    .error (.typeError "can not convert CUDA tensor to numpy")
  else
    .ok { shape := t.shape, dtype := npDtypeOfTorch t.dtype, data := t.data }

/-- `Tensor.type(dtype=d, non_blocking=nb)`: re-type the tensor to `d`. -/
def TorchTensor.type (t : TorchTensor) (dtype : TorchDtype) (non_blocking : Bool) : TorchTensor :=
  { t with dtype := dtype, data := t.data.map dtype.cast }

/-- `getattr(torch, s)` restricted to the attributes that are dtypes:
the registry of valid torch dtype identifier strings. -/
def torchAttrDtype : String → Option TorchDtype
  | "bool" => some .bool
  | "uint8" => some .uint8
  | "int8" => some .int8
  | "int16" => some .int16
  | "short" => some .int16
  | "int32" => some .int32
  | "int" => some .int32
  | "int64" => some .int64
  | "long" => some .int64
  | "float16" => some .float16
  | "half" => some .float16
  | "float32" => some .float32
  | "float" => some .float32
  | "float64" => some .float64
  | "double" => some .float64
  | _ => none

/-- torch attributes that exist but are not dtypes: `getattr` finds them,
then the `isinstance(_, torch.dtype)` guard rejects them. -/
def torchNonDtypeAttrs : List String :=
  ["Tensor", "tensor", "from_numpy", "mean", "zeros", "ones", "device", "dtype", "Size"]

/-- Configuration stored by `AsType.__init__` in `self.kwargs`. -/
structure AsType where
  dtype : TorchDtype
  non_blocking : Bool
  deriving DecidableEq, Repr

/-- `AsType.__init__(dtype, non_blocking)`: resolves the dtype name via
`getattr(torch, dtype)` (AttributeError when absent), checks it is a
`torch.dtype` (TypeError otherwise), and stores the configuration. -/
def AsType.init (dtype : String) (non_blocking : Bool) : Except PyErr AsType :=
  match torchAttrDtype dtype with
  | some d => .ok { dtype := d, non_blocking := non_blocking }
  | none =>
      if dtype ∈ torchNonDtypeAttrs then
        .error (.typeError ("torch." ++ dtype))
      else
        .error (.attributeError ("module torch has no attribute " ++ dtype))

/-- `AsType.apply_to_chosen`: `tensor.type(**self.kwargs)`. -/
def AsType.apply_to_chosen (c : AsType) (t : TorchTensor) : TorchTensor :=
  t.type c.dtype c.non_blocking

/-- `EnsureTorch.apply_to_chosen`: a numpy array is converted with
`torch.from_numpy`, widening `uint16` to `int32` first; a torch tensor is
passed through unchanged. -/
def EnsureTorch.apply_to_chosen : TensorLike → Except PyErr TensorLike
  | .np a =>
      let a2 := if a.dtype = .uint16 then a.astype .int32 else a
      (from_numpy a2).map .torch
  | .torch t => .ok (.torch t)

/-- `EnsureNumpy.apply_to_chosen`: a torch tensor goes through
`detach().cpu().numpy()`; a numpy array is passed through unchanged. -/
def EnsureNumpy.apply_to_chosen : TensorLike → Except PyErr TensorLike
  | .np a => .ok (.np a)
  | .torch t => (t.detach.cpu.numpy).map .np

/-- Configuration stored by `AverageChannels.__init__` (no validation at
construction: the bounds are stored as given). -/
structure AverageChannels where
  start_channel : Option ℤ
  stop_channel : Option ℤ
  deriving DecidableEq, Repr

/-- Python slice-endpoint normalization on an axis of length `n`:
negative endpoints count from the end and both sides clamp to `[0, n]`. -/
def normIndex (n : Nat) (i : ℤ) : Nat :=
  if i < 0 then ((n : ℤ) + i).toNat else min i.toNat n

/-- `torch.Tensor.is_floating_point`: the floating dtypes of the model. -/
def TorchDtype.isFloatingPoint : TorchDtype → Bool
  | .float16 => true
  | .float32 => true
  | .float64 => true
  | _ => false

/-- Error message raised by `torch.mean` on a non-floating dtype tensor
(the code passes no `dtype=` argument to `torch.mean`). -/
def meanErrMsg : String := "Can only calculate the mean of floating types"

/-- Successful `torch.mean(tensor[:, lo:hi], 1, keepdim=True)` for a
floating-dtype tensor of shape `n :: ch :: rest`: the channel axis is
restricted to `[lo, hi)`, averaged (NaN when the slice is empty), and
kept as a size-1 axis; the floating dtype is kept. -/
def meanChannelsKeepdim (t : TorchTensor) (n ch : Nat) (rest : List Nat)
    (lo hi : Nat) : TorchTensor :=
  let sp := rest.prod
  let k := hi - lo
  { shape := n :: 1 :: rest
    dtype := t.dtype
    data := (List.range n).flatMap fun b =>
      (List.range sp).map fun s =>
        pyMean ((List.range k).map fun j =>
          t.data.getD (b * (ch * sp) + (lo + j) * sp + s) (0 : PyVal))
    onGPU := t.onGPU
    requiresGrad := t.requiresGrad }

/-- `torch.mean(tensor[:, lo:hi], 1, keepdim=True)`: raises a
RuntimeError on integer and bool dtypes, otherwise reduces the sliced
channel axis with `keepdim=True`. -/
def torchMeanDim1Keepdim (t : TorchTensor) (n ch : Nat) (rest : List Nat)
    (lo hi : Nat) : Except PyErr TorchTensor :=
  if t.dtype.isFloatingPoint then
    .ok (meanChannelsKeepdim t n ch rest lo hi)
  else
    .error (.runtimeError meanErrMsg)

/-- Error message raised by `AverageChannels.apply_to_chosen`. -/
def invalidRangeMsg : String :=
  "Invalid channel range in pybio.torch.transformation.AverageChannels"

/-- `AverageChannels.apply_to_chosen`: reads `tensor.shape[1]` (IndexError
for tensors with fewer than two axes), defaults the bounds, validates
`start_channel < stop_channel <= n_channels`, then slices the channel axis
with Python slice semantics and averages it with `keepdim=True`. -/
def AverageChannels.apply_to_chosen (c : AverageChannels) (t : TorchTensor) :
    Except PyErr TorchTensor :=
  match t.shape with
  | [] => .error (.indexError "tuple index out of range")
  | [_] => .error (.indexError "tuple index out of range")
  | n :: ch :: rest =>
      let start_channel : ℤ := c.start_channel.getD 0
      let stop_channel : ℤ := c.stop_channel.getD ch
      if start_channel ≥ stop_channel ∨ stop_channel > (ch : ℤ) then
        .error (.valueError invalidRangeMsg)
      else
        torchMeanDim1Keepdim t n ch rest
          (normIndex ch start_channel) (normIndex ch stop_channel)

end PybioGeneric

namespace PybioGeneric

/-! ### Helper lemmas -/

theorem num_cast_of_den_one (q : ℚ) (h : q.den = 1) : (q.num : ℚ) = q := by
  conv_rhs => rw [← Rat.num_div_den q]
  rw [h]
  simp

theorem truncQ_den_one (q : ℚ) (h : q.den = 1) : truncQ q = q.num := by
  rw [truncQ]
  rcases le_or_lt 0 q with h0 | h0
  · rw [if_pos h0]
    conv_lhs => rw [← num_cast_of_den_one q h]
    exact Int.floor_intCast q.num
  · rw [if_neg (not_le.mpr h0)]
    conv_lhs => rw [← num_cast_of_den_one q h]
    exact Int.ceil_intCast q.num

theorem castQ_int32_of_uint16_bounds (q : ℚ) (hden : q.den = 1)
    (hlo : 0 ≤ q.num) (hhi : q.num < 2 ^ 16) : NpDtype.castQ .int32 q = q := by
  have hp : (2:ℤ) ^ 16 = 65536 := by norm_num
  rw [hp] at hhi
  simp only [NpDtype.castQ, wrapSigned]
  rw [truncQ_den_one q hden]
  have h31 : (2:ℤ) ^ (32 - 1) = 2147483648 := by norm_num
  have h32 : (2:ℤ) ^ 32 = 4294967296 := by norm_num
  rw [h31, h32]
  have hw : (q.num + 2147483648) % 4294967296 - 2147483648 = q.num := by omega
  rw [hw]
  exact num_cast_of_den_one q hden

theorem cast_int32_of_uint16_ok (v : PyVal) (h : NpDtype.valueOK .uint16 v = true) :
    NpDtype.cast .int32 v = v := by
  cases v with
  | nan => simp [NpDtype.valueOK, NpDtype.intBounds] at h
  | val q =>
      simp only [NpDtype.valueOK, NpDtype.intBounds, Bool.and_eq_true, beq_iff_eq,
        decide_eq_true_eq] at h
      obtain ⟨⟨hden, hlo⟩, hhi⟩ := h
      simp only [NpDtype.cast, castQ_int32_of_uint16_bounds q hden hlo hhi]

theorem ensureTorch_np_uint16_raw (a : NDArray) (hd : a.dtype = .uint16) :
    EnsureTorch.apply_to_chosen (.np a) =
      .ok (.torch ⟨a.shape, .int32, a.data.map (NpDtype.cast .int32), false, false⟩) := by
  simp [EnsureTorch.apply_to_chosen, hd, NDArray.astype, from_numpy, torchDtypeOfNp,
    Except.map]

theorem uint16_wf_data_map (a : NDArray) (hd : a.dtype = .uint16) (hwf : a.wf = true) :
    a.data.map (NpDtype.cast .int32) = a.data := by
  simp only [NDArray.wf, Bool.and_eq_true, List.all_eq_true, hd] at hwf
  have : a.data.map (NpDtype.cast .int32) = a.data.map id :=
    List.map_congr_left fun q hq => cast_int32_of_uint16_ok q (hwf.2 q hq)
  simpa using this

theorem ensureTorch_np_uint16 (a : NDArray) (hd : a.dtype = .uint16) (hwf : a.wf = true) :
    EnsureTorch.apply_to_chosen (.np a) =
      .ok (.torch ⟨a.shape, .int32, a.data, false, false⟩) := by
  rw [ensureTorch_np_uint16_raw a hd, uint16_wf_data_map a hd hwf]

theorem ensureTorch_np_of_ne (a : NDArray) (hd : ¬a.dtype = .uint16) :
    EnsureTorch.apply_to_chosen (.np a) =
      .ok (.torch ⟨a.shape, torchDtypeOfNp a.dtype, a.data, false, false⟩) := by
  simp [EnsureTorch.apply_to_chosen, hd, from_numpy, Except.map]

theorem ensureNumpy_torch (t : TorchTensor) :
    EnsureNumpy.apply_to_chosen (.torch t) =
      .ok (.np ⟨t.shape, npDtypeOfTorch t.dtype, t.data⟩) := by
  simp [EnsureNumpy.apply_to_chosen, TorchTensor.detach, TorchTensor.cpu, TorchTensor.numpy,
    Except.map]

theorem avg_apply_cons (c : AverageChannels) (t : TorchTensor) (n ch : Nat)
    (rest : List Nat) (hshape : t.shape = n :: ch :: rest) :
    c.apply_to_chosen t =
      if c.start_channel.getD 0 ≥ c.stop_channel.getD ch ∨
          c.stop_channel.getD ch > (ch : ℤ) then
        .error (.valueError invalidRangeMsg)
      else
        torchMeanDim1Keepdim t n ch rest
          (normIndex ch (c.start_channel.getD 0))
          (normIndex ch (c.stop_channel.getD ch)) := by
  rw [AverageChannels.apply_to_chosen.eq_def, hshape]

theorem normIndex_of_nonneg (n : Nat) (i : ℤ) (h0 : 0 ≤ i) (hn : i ≤ n) :
    normIndex n i = i.toNat := by
  rw [normIndex, if_neg (by omega)]
  exact Nat.min_eq_left (by omega)

theorem normIndex_of_neg (n : Nat) (i : ℤ) (h0 : i < 0) :
    normIndex n i = ((n : ℤ) + i).toNat := by
  rw [normIndex, if_pos h0]

/-! ### Claim theorems -/

/-- C1: for every tensor with at least 2 axes and `n` total channels,
`AverageChannels.apply_to_chosen` raises the invalid-channel-range
ValueError (naming the component in its message) if and only if the
effective bounds violate `start_channel < stop_channel <= n`, where a
`None` start defaults to 0 and a `None` stop defaults to `n`; the check
runs at call time (construction stores the bounds unvalidated). -/
theorem averageChannels_invalid_range_iff (c : AverageChannels) (t : TorchTensor)
    (n ch : Nat) (rest : List Nat) (hshape : t.shape = n :: ch :: rest) :
    c.apply_to_chosen t = .error (.valueError invalidRangeMsg) ↔
      ¬(c.start_channel.getD 0 < c.stop_channel.getD ch ∧
        c.stop_channel.getD ch ≤ (ch : ℤ)) := by
  rw [avg_apply_cons c t n ch rest hshape]
  by_cases hcond : c.start_channel.getD 0 ≥ c.stop_channel.getD ch ∨
      c.stop_channel.getD ch > (ch : ℤ)
  · rw [if_pos hcond]
    simp only [eq_self_iff_true, true_iff]
    omega
  · rw [if_neg hcond, torchMeanDim1Keepdim]
    split
    · simp only [reduceCtorEq, false_iff, not_not]
      omega
    · simp only [Except.error.injEq, reduceCtorEq, false_iff, not_not]
      omega

/-- C1 witness: the empty range `start=2, stop=2` and the out-of-bounds
`start=0, stop=5` both raise the invalid-range error on a 4-channel
tensor. -/
theorem averageChannels_invalid_range_iff_witness :
    (AverageChannels.mk (some 2) (some 2)).apply_to_chosen
        ⟨[1, 4], .int32, [1, 2, 3, 4], false, false⟩ =
      .error (.valueError invalidRangeMsg) ∧
    (AverageChannels.mk (some 0) (some 5)).apply_to_chosen
        ⟨[1, 4], .int32, [1, 2, 3, 4], false, false⟩ =
      .error (.valueError invalidRangeMsg) := by
  constructor
  · exact (averageChannels_invalid_range_iff _ _ 1 4 [] rfl).mpr (by decide)
  · exact (averageChannels_invalid_range_iff _ _ 1 4 [] rfl).mpr (by decide)

/-- C2 counterexample: the claim as stated fails on the code: with the
valid range `start=1, stop=3` on an int32 tensor of shape `[1,4,1,1]`,
`apply_to_chosen` does not return an averaged tensor; the call raises
the RuntimeError of `torch.mean`, which rejects non-floating dtypes
because the code passes no `dtype=` argument. -/
theorem averageChannels_valid_range_mean_counterexample :
    (AverageChannels.mk (some 1) (some 3)).apply_to_chosen
        ⟨[1, 4, 1, 1], .int32, [1, 2, 3, 4], false, false⟩ =
      .error (.runtimeError meanErrMsg) := by decide

/-- C2 amended: for every tensor of floating dtype of shape
`[N, C, ...spatial]` and every valid range (effective
`0 <= start < stop <= C`), `apply_to_chosen` returns the tensor whose
channel axis is sliced to `[start, stop)`, averaged over that axis, and
kept as a size-1 dimension, all other axes and the dtype unchanged: each
output entry at batch `b`, spatial offset `s` is the mean of the input
entries over channels `start..stop-1`.  (On integer and bool dtypes the
same call raises the RuntimeError of `torch.mean` instead, as the
counterexample shows.) -/
theorem averageChannels_float_valid_range_mean (c : AverageChannels)
    (t : TorchTensor) (n ch : Nat) (rest : List Nat) (start stop : ℤ)
    (hshape : t.shape = n :: ch :: rest)
    (hfloat : t.dtype.isFloatingPoint = true)
    (hstart : c.start_channel.getD 0 = start)
    (hstop : c.stop_channel.getD ch = stop)
    (h0 : 0 ≤ start) (h1 : start < stop) (h2 : stop ≤ (ch : ℤ)) :
    c.apply_to_chosen t = .ok
      { shape := n :: 1 :: rest
        dtype := t.dtype
        data := (List.range n).flatMap fun b =>
          (List.range rest.prod).map fun s =>
            pyMean ((List.range (stop - start).toNat).map fun j =>
              t.data.getD (b * (ch * rest.prod) + (start.toNat + j) * rest.prod + s)
                (0 : PyVal))
        onGPU := t.onGPU
        requiresGrad := t.requiresGrad } := by
  rw [avg_apply_cons c t n ch rest hshape, hstart, hstop, if_neg (by omega)]
  rw [normIndex_of_nonneg ch start h0 (by omega),
      normIndex_of_nonneg ch stop (by omega) h2]
  rw [torchMeanDim1Keepdim, if_pos hfloat]
  have hk : stop.toNat - start.toNat = (stop - start).toNat := by omega
  rw [meanChannelsKeepdim]
  simp only [hk]

/-- C2 witness: `start=1, stop=3` on a float32 tensor of shape
`[1,4,1,1]` with channel values 1, 2, 3, 4 yields shape `[1,1,1,1]` and
the mean `5/2` of channels 1 and 2. -/
theorem averageChannels_float_valid_range_mean_witness :
    (AverageChannels.mk (some 1) (some 3)).apply_to_chosen
        ⟨[1, 4, 1, 1], .float32, [1, 2, 3, 4], false, false⟩ =
      .ok ⟨[1, 1, 1, 1], .float32, [.val (5 / 2)], false, false⟩ := by
  rw [averageChannels_float_valid_range_mean (AverageChannels.mk (some 1) (some 3))
      ⟨[1, 4, 1, 1], .float32, [1, 2, 3, 4], false, false⟩ 1 4 [1, 1] 1 3 rfl rfl
      rfl rfl (by decide) (by decide) (by decide)]
  norm_num
  simp only [Int.reduceToNat]
  norm_num [List.range_succ, pyMean, pySum, PyVal.add]

set_option maxHeartbeats 1000000 in
/-- C3 (code bug): on the host array of shape `[2,4,3,3]`, dtype uint16,
all values 5, `EnsureTorch.apply_to_chosen` yields an int32 tensor, and
`AverageChannels(0, 4).apply_to_chosen` on that tensor then raises the
RuntimeError of `torch.mean` (which rejects integer dtypes; the code
passes no `dtype=` argument), so the pipeline does not yield the
`[2,1,3,3]` tensor of 5.0 that the spec's scenario promises. -/
theorem uint16_pipeline_runtime_error :
    EnsureTorch.apply_to_chosen (.np ⟨[2, 4, 3, 3], .uint16, List.replicate 72 5⟩) =
      .ok (.torch ⟨[2, 4, 3, 3], .int32, List.replicate 72 5, false, false⟩) ∧
    (AverageChannels.mk (some 0) (some 4)).apply_to_chosen
        ⟨[2, 4, 3, 3], .int32, List.replicate 72 5, false, false⟩ =
      .error (.runtimeError meanErrMsg) := by
  constructor
  · decide
  · decide

/-- C4: for every well-formed host array `x`,
`EnsureNumpy.apply_to_chosen (EnsureTorch.apply_to_chosen x)` succeeds and
is a host array with the same values (and shape) as `x`. -/
theorem ensure_torch_numpy_roundtrip (a : NDArray) (hwf : a.wf = true) :
    ∃ b : NDArray,
      (EnsureTorch.apply_to_chosen (.np a)).bind EnsureNumpy.apply_to_chosen =
        .ok (.np b) ∧ b.data = a.data ∧ b.shape = a.shape := by
  by_cases hd : a.dtype = .uint16
  · refine ⟨⟨a.shape, .int32, a.data⟩, ?_, rfl, rfl⟩
    rw [ensureTorch_np_uint16 a hd hwf]
    exact ensureNumpy_torch _
  · refine ⟨⟨a.shape, npDtypeOfTorch (torchDtypeOfNp a.dtype), a.data⟩, ?_, rfl, rfl⟩
    rw [ensureTorch_np_of_ne a hd]
    exact ensureNumpy_torch _

/-- C4 witness: the round trip at a concrete uint16 host array. -/
theorem ensure_torch_numpy_roundtrip_witness :
    (⟨[2], .uint16, [0, 65535]⟩ : NDArray).wf = true ∧
    ∃ b : NDArray,
      (EnsureTorch.apply_to_chosen (.np ⟨[2], .uint16, [0, 65535]⟩)).bind
          EnsureNumpy.apply_to_chosen = .ok (.np b) ∧
      b.data = [0, 65535] ∧ b.shape = [2] :=
  ⟨by decide, ensure_torch_numpy_roundtrip ⟨[2], .uint16, [0, 65535]⟩ (by decide)⟩

/-- C5: on every well-formed host array of dtype uint16,
`EnsureTorch.apply_to_chosen` returns an int32 CPU tensor with the same
values (the uint16 array is widened to int32 before conversion). -/
theorem ensureTorch_uint16_to_int32 (a : NDArray) (hd : a.dtype = .uint16)
    (hwf : a.wf = true) :
    EnsureTorch.apply_to_chosen (.np a) =
      .ok (.torch ⟨a.shape, .int32, a.data, false, false⟩) :=
  ensureTorch_np_uint16 a hd hwf

/-- C5 witness: a concrete uint16 host array is widened to int32 with its
values unchanged. -/
theorem ensureTorch_uint16_to_int32_witness :
    EnsureTorch.apply_to_chosen (.np ⟨[3], .uint16, [0, 7, 65535]⟩) =
      .ok (.torch ⟨[3], .int32, [0, 7, 65535], false, false⟩) :=
  ensureTorch_uint16_to_int32 ⟨[3], .uint16, [0, 7, 65535]⟩ rfl (by decide)

/-- C6: for every dtype identifier string that does not resolve to a
torch dtype, `AsType.init` fails at construction time (AttributeError for
an unknown attribute, TypeError for a non-dtype attribute); nothing is
deferred to apply time. -/
theorem asType_init_invalid_dtype (s : String) (nb : Bool)
    (h : torchAttrDtype s = none) :
    ∃ e : PyErr, AsType.init s nb = .error e := by
  refine ⟨if s ∈ torchNonDtypeAttrs then .typeError ("torch." ++ s)
          else .attributeError ("module torch has no attribute " ++ s), ?_⟩
  rw [AsType.init.eq_def, h]
  by_cases hm : s ∈ torchNonDtypeAttrs
  · rw [if_pos hm, if_pos hm]
  · rw [if_neg hm, if_neg hm]

/-- C6 witness: the invalid dtype name "float31" fails at construction. -/
theorem asType_init_invalid_dtype_witness :
    ∃ e : PyErr, AsType.init "float31" true = .error e :=
  asType_init_invalid_dtype "float31" true rfl

/-- C7: for every valid dtype name and every tensor, `AsType.init`
succeeds and `AsType.apply_to_chosen` returns the input tensor re-typed to
the resolved dtype, with shape, device placement and graph attachment
unchanged and the values cast elementwise. -/
theorem asType_apply_retypes (s : String) (dt : TorchDtype) (nb : Bool)
    (t : TorchTensor) (h : torchAttrDtype s = some dt) :
    ∃ c : AsType, AsType.init s nb = .ok c ∧
      (c.apply_to_chosen t).dtype = dt ∧
      (c.apply_to_chosen t).shape = t.shape ∧
      (c.apply_to_chosen t).data = t.data.map dt.cast ∧
      (c.apply_to_chosen t).onGPU = t.onGPU ∧
      (c.apply_to_chosen t).requiresGrad = t.requiresGrad := by
  refine ⟨⟨dt, nb⟩, ?_, rfl, rfl, rfl, rfl, rfl⟩
  rw [AsType.init.eq_def, h]

/-- C7 witness: `AsType("double")` re-types a concrete int32 tensor to
float64. -/
theorem asType_apply_retypes_witness :
    ∃ c : AsType, AsType.init "double" false = .ok c ∧
      (c.apply_to_chosen ⟨[1], .int32, [7], false, false⟩).dtype = .float64 ∧
      (c.apply_to_chosen ⟨[1], .int32, [7], false, false⟩).shape = [1] ∧
      (c.apply_to_chosen ⟨[1], .int32, [7], false, false⟩).data =
        [(7 : PyVal)].map TorchDtype.float64.cast ∧
      (c.apply_to_chosen ⟨[1], .int32, [7], false, false⟩).onGPU = false ∧
      (c.apply_to_chosen ⟨[1], .int32, [7], false, false⟩).requiresGrad = false :=
  asType_apply_retypes "double" .float64 false ⟨[1], .int32, [7], false, false⟩ rfl

/-- C8: `EnsureTorch.apply_to_chosen` is the identity on native tensors,
and applying it twice to a host array yields the same tensor (hence the
same element values) as applying it once. -/
theorem ensureTorch_identity_idempotent :
    (∀ t : TorchTensor, EnsureTorch.apply_to_chosen (.torch t) = .ok (.torch t)) ∧
    (∀ a : NDArray, ∃ t : TorchTensor,
      EnsureTorch.apply_to_chosen (.np a) = .ok (.torch t) ∧
      (EnsureTorch.apply_to_chosen (.np a)).bind EnsureTorch.apply_to_chosen =
        .ok (.torch t)) := by
  refine ⟨fun t => rfl, fun a => ?_⟩
  by_cases hd : a.dtype = .uint16
  · refine ⟨_, ensureTorch_np_uint16_raw a hd, ?_⟩
    rw [ensureTorch_np_uint16_raw a hd]
    rfl
  · refine ⟨_, ensureTorch_np_of_ne a hd, ?_⟩
    rw [ensureTorch_np_of_ne a hd]
    rfl

/-- C9: `AverageChannels` does not validate that `start_channel` is
non-negative: a negative start `s` with `s < stop <= n` passes the range
check — the call raises no invalid-range error — and the slice follows
Python negative-index semantics, so the call behaves exactly as
`torch.mean` over the channel selection starting at index `n + s` (a
possibly empty selection, whose mean is then NaN). -/
theorem averageChannels_negative_start_slice (c : AverageChannels)
    (t : TorchTensor) (n ch : Nat) (rest : List Nat) (s stop : ℤ)
    (hshape : t.shape = n :: ch :: rest)
    (hs : c.start_channel = some s) (hst : c.stop_channel = some stop)
    (hneg : s < 0) (hge : -(ch : ℤ) ≤ s) (h1 : s < stop) (h2 : 0 ≤ stop)
    (h3 : stop ≤ (ch : ℤ)) :
    c.apply_to_chosen t =
      torchMeanDim1Keepdim t n ch rest ((ch : ℤ) + s).toNat stop.toNat ∧
    c.apply_to_chosen t ≠ .error (.valueError invalidRangeMsg) := by
  have happ : c.apply_to_chosen t =
      torchMeanDim1Keepdim t n ch rest ((ch : ℤ) + s).toNat stop.toNat := by
    rw [avg_apply_cons c t n ch rest hshape]
    simp only [hs, hst, Option.getD_some]
    rw [if_neg (by omega)]
    rw [normIndex_of_neg ch s hneg, normIndex_of_nonneg ch stop h2 h3]
  refine ⟨happ, ?_⟩
  rw [happ, torchMeanDim1Keepdim]
  split
  · simp
  · simp

/-- C9 witness: `start=-1, stop=2` on a 4-channel float32 tensor raises
no error; the slice starts at channel `4 + (-1) = 3 >= 2`, so the
selection is empty and the resulting mean values are NaN. -/
theorem averageChannels_negative_start_slice_witness :
    (AverageChannels.mk (some (-1)) (some 2)).apply_to_chosen
        ⟨[1, 4], .float32, [1, 2, 3, 4], false, false⟩ =
      torchMeanDim1Keepdim ⟨[1, 4], .float32, [1, 2, 3, 4], false, false⟩
        1 4 [] (((4 : Nat) : ℤ) + (-1)).toNat (2 : ℤ).toNat ∧
    torchMeanDim1Keepdim ⟨[1, 4], .float32, [1, 2, 3, 4], false, false⟩ 1 4 [] 3 2 =
      .ok ⟨[1, 1], .float32, [.nan], false, false⟩ := by
  constructor
  · exact (averageChannels_negative_start_slice _ _ 1 4 [] (-1) 2 rfl rfl rfl
      (by decide) (by decide) (by decide) (by decide) (by decide)).1
  · decide

/-- C10: for every tensor with fewer than 2 axes, `apply_to_chosen` fails
with the IndexError from reading `tensor.shape[1]`, before any range
validation; the IndexError occurs exactly when the tensor has fewer than
2 axes. -/
theorem averageChannels_rank_error_iff (c : AverageChannels) (t : TorchTensor) :
    c.apply_to_chosen t = .error (.indexError "tuple index out of range") ↔
      t.shape.length < 2 := by
  obtain ⟨sh, d, data, g, r⟩ := t
  rcases sh with _ | ⟨a, sh⟩
  · simp [AverageChannels.apply_to_chosen]
  · rcases sh with _ | ⟨b, sh⟩
    · simp [AverageChannels.apply_to_chosen]
    · rw [avg_apply_cons c ⟨a :: b :: sh, d, data, g, r⟩ a b sh rfl]
      split
      · simp
      · rw [torchMeanDim1Keepdim]
        split <;> simp
